import Mathlib

/-!
Verification of the incremental diff engine, entity builder, quality score
and diff-run lifecycle of the data-source-app repository
(src/services/incremental_diff_service.py, src/models/normalized_builder.py,
src/extractor/quality_metrics.py), shallowly embedded in Lean.
-/

namespace DSA

/-- JSON-like attribute values as decoded from the store's jsonb columns into
Python objects: `null` is Python `None`, `num` an integer number, `arr` a list
and `obj` a dict represented as an association list of fields. -/
inductive Value where
  | null : Value
  | bool (b : Bool) : Value
  | num (n : Int) : Value
  | str (s : String) : Value
  | arr (xs : List Value) : Value
  | obj (fields : List (String × Value)) : Value

mutual

/-- Python `==` on the JSON-like values compared by `_calculate_asset_diff`
(`val_1 != val_2`).  Python equality is structural, with the numeric tower
caveat that `bool` is an `int` subclass, so `True == 1` and `False == 0`;
strings never equal numbers; `None` equals only `None`.  Lists compare
pointwise; dicts compare as finite maps (same keys, equal values) — on
duplicate-free association lists `pyEqSub xs ys && pyEqSub ys xs` is exactly
Python's dict equality. -/
def pyEq : Value → Value → Bool
  | .null, .null => true
  | .bool a, .bool b => a == b
  | .bool a, .num n => (if a then (1 : Int) else 0) == n
  | .num n, .bool b => n == (if b then (1 : Int) else 0)
  | .num a, .num b => a == b
  | .str a, .str b => a == b
  | .arr xs, .arr ys => pyEqList xs ys
  | .obj xs, .obj ys => pyEqSub xs ys && pyEqSub ys xs
  | _, _ => false
termination_by a b => sizeOf a + sizeOf b

/-- Pointwise Python equality of two lists (Python list `==`). -/
def pyEqList : List Value → List Value → Bool
  | [], [] => true
  | x :: xs, y :: ys => pyEq x y && pyEqList xs ys
  | _, _ => false
termination_by xs ys => sizeOf xs + sizeOf ys

/-- Every field of the first association list has a Python-equal field in the
second (one inclusion of Python dict equality). -/
def pyEqSub : List (String × Value) → List (String × Value) → Bool
  | [], _ => true
  | (k, v) :: ps, ys => pyEqFind k v ys && pyEqSub ps ys
termination_by ps ys => sizeOf ps + sizeOf ys

/-- Some field of the list has the given key and a Python-equal value. -/
def pyEqFind (k : String) (v : Value) : List (String × Value) → Bool
  | [] => false
  | (k2, v2) :: qs => (k == k2 && pyEq v v2) || pyEqFind k v qs
termination_by qs => sizeOf v + sizeOf qs

end

/-- An attribute map: a Python dict of JSON-like values, as an association
list (snapshot rows store these as jsonb; keys are unique in a real dict). -/
abbrev AttrMap := List (String × Value)

/-- One entity row as loaded by `_get_schemas_for_sync_run` and friends: the
diff only ever reads the `attributes` and `custom_attributes` columns, each of
which may be SQL NULL (Python `None`), which `_calculate_asset_diff` coerces
to `{}` via `asset.get(..., {}) or {}`. -/
structure Asset where
  attributes : Option AttrMap
  custom_attributes : Option AttrMap

/-- `asset.get('attributes', {}) or {}`: missing or `None` becomes `{}`. -/
def attrsOrEmpty (o : Option AttrMap) : AttrMap := o.getD []

/-- `attrs.get(key)`: Python returns `None` both for an absent key and for a
stored JSON null, so absent collapses to `Value.null`. -/
def getVal (m : AttrMap) (k : String) : Value := (m.lookup k).getD .null

/-- `set(attrs_1.keys()) | set(attrs_2.keys())`: the union of the key sets,
as a duplicate-free list. -/
def keyUnion (m1 m2 : AttrMap) : List String :=
  (m1.map Prod.fst ++ m2.map Prod.fst).dedup

/-- One entry of the `differences` dict:
`differences[path] = {'old': val_1, 'new': val_2}`. -/
structure DiffEntry where
  path : String
  old : Value
  new : Value

def dotSep : String := "."

/-- The field-by-field comparison loop of `_calculate_asset_diff` over one of
the two maps: for each key of either side, record `{path, old, new}` when the
values are not Python-equal. -/
def compareMaps (pre : String) (m1 m2 : AttrMap) : List DiffEntry :=
  (keyUnion m1 m2).filterMap fun k =>
    if pyEq (getVal m1 k) (getVal m2 k) then none
    else some ⟨pre ++ dotSep ++ k, getVal m1 k, getVal m2 k⟩

/-- The four change classifications of `DiffResult.change_type`. -/
inductive ChangeType where
  | added
  | removed
  | modified
  | unchanged
deriving DecidableEq, BEq

/-- `DiffResult` of incremental_diff_service.py. -/
structure DiffResult where
  change_type : ChangeType
  differences : List DiffEntry
  sync_run_1_data : Option Asset
  sync_run_2_data : Option Asset

def attrsLabel : String := "attributes"

def customLabel : String := "custom_attributes"

/-- The full difference dict accumulated for a pair of present assets:
`attributes` compared first, then `custom_attributes`. -/
def assetDifferences (a1 a2 : Asset) : List DiffEntry :=
  compareMaps attrsLabel (attrsOrEmpty a1.attributes) (attrsOrEmpty a2.attributes)
    ++ compareMaps customLabel (attrsOrEmpty a1.custom_attributes) (attrsOrEmpty a2.custom_attributes)

/-- `_calculate_asset_diff(asset_1, asset_2)`. -/
def calculateAssetDiff : Option Asset → Option Asset → DiffResult
  | none, none => ⟨.unchanged, [], none, none⟩
  | none, some a2 => ⟨.added, [], none, some a2⟩
  | some a1, none => ⟨.removed, [], some a1, none⟩
  | some a1, some a2 =>
    if (assetDifferences a1 a2).isEmpty
    then ⟨.unchanged, [], some a1, some a2⟩
    else ⟨.modified, assetDifferences a1 a2, some a1, some a2⟩

section SnapshotDiff

variable {κ : Type} [DecidableEq κ]

/-- An entity snapshot of one kind: the lookup dict built by
`calculate_schema_diff`/`calculate_table_diff`/`calculate_column_diff`,
keyed by the composite identity (name, (schema, name), or
(schema, table, name)); composite keys are unique within one sync run. -/
abbrev Snapshot (κ : Type) := List (κ × Asset)

/-- Per-key classification: `_calculate_asset_diff(dict_1.get(k), dict_2.get(k))`. -/
def classify (older newer : Snapshot κ) (k : κ) : DiffResult :=
  calculateAssetDiff (older.lookup k) (newer.lookup k)

/-- The union of composite keys of the two snapshots. -/
def unionKeys (older newer : Snapshot κ) : List κ :=
  (older.map Prod.fst ++ newer.map Prod.fst).dedup

def classType (older newer : Snapshot κ) (k : κ) : ChangeType :=
  (classify older newer k).change_type

/-- How many keys of the union are classified `t`. -/
def countType (older newer : Snapshot κ) (t : ChangeType) : Nat :=
  (unionKeys older newer).countP fun k => decide (classType older newer k = t)

/-- `changes_count` as returned by the per-kind diff phases: one per
non-`unchanged` key. -/
def changesCount (older newer : Snapshot κ) : Nat :=
  (unionKeys older newer).countP fun k => decide (classType older newer k ≠ .unchanged)

/-- The diff records persisted by a phase: one `_save_*_diff` call per
non-`unchanged` key. -/
def savedRecords (older newer : Snapshot κ) : List (κ × DiffResult) :=
  (unionKeys older newer).filterMap fun k =>
    if classType older newer k = .unchanged then none
    else some (k, classify older newer k)

end SnapshotDiff

def sampleAsset : Asset :=
  ⟨some [(("dataType"), .str ("integer")), (("isNullable"), .bool false)], some []⟩

def sampleOlder : Snapshot String := [(("id"), sampleAsset)]

def sampleNewer : Snapshot String := [(("id"), sampleAsset), (("email"), sampleAsset)]

/-- The older `public.users.email` column of Scenario A: `isNullable` false. -/
def emailOld : Asset :=
  ⟨some [(("dataType"), .str ("varchar")), (("isNullable"), .bool false)], some []⟩

/-- The newer `public.users.email` column of Scenario A: `isNullable` true. -/
def emailNew : Asset :=
  ⟨some [(("dataType"), .str ("varchar")), (("isNullable"), .bool true)], some []⟩

/-- Asset whose only attribute is the JSON boolean `true`. -/
def boolTrueAsset : Asset := ⟨some [(("flag"), .bool true)], some []⟩

/-- Asset whose only attribute is the JSON number `1`. -/
def numOneAsset : Asset := ⟨some [(("flag"), .num 1)], some []⟩

/-- Asset whose only attribute is the JSON number `5`. -/
def numFiveAsset : Asset := ⟨some [(("a"), .num 5)], some []⟩

/-- Asset whose only attribute is the JSON string `"5"`. -/
def strFiveAsset : Asset := ⟨some [(("a"), .str ("5"))], some []⟩

/-- What reversing the snapshot order does to a single classification. -/
def swapCT : ChangeType → ChangeType
  | .added => .removed
  | .removed => .added
  | .modified => .modified
  | .unchanged => .unchanged

/-- Python 3 `round(x)` (round half to even), on exact rationals: the model
idealises the source's float arithmetic by exact rational arithmetic. -/
def roundHalfEven (x : ℚ) : ℤ :=
  let f := ⌊x⌋
  let r := x - f
  if r < 1/2 then f
  else if 1/2 < r then f + 1
  else if f % 2 = 0 then f else f + 1

/-- Python `round(x, 1)`: round to one decimal digit. -/
def pyRound1 (x : ℚ) : ℚ := (roundHalfEven (10 * x) : ℚ) / 10

/-- `clamp(lo, hi, x)` as the spec writes `max(lo, min(hi, x))`. -/
def clampScore (lo hi x : ℚ) : ℚ := max lo (min hi x)

/-- `_calculate_quality_score(total_columns, high_null_columns,
low_distinct_columns)` of quality_metrics.py. -/
def calculateQualityScore (total_columns high_null_columns low_distinct_columns : ℕ) : ℚ :=
  if total_columns = 0 then 100
  else
    let null_penalty : ℚ := ((high_null_columns : ℚ) / (total_columns : ℚ)) * 30
    let distinct_penalty : ℚ := ((low_distinct_columns : ℚ) / (total_columns : ℚ)) * 20
    let quality_score := 100 - null_penalty - distinct_penalty
    max 0 (min 100 (pyRound1 quality_score))

/-- Python `"/".join(parts)`. -/
def joinSlash : List String → String
  | [] => ""
  | [x] => x
  | x :: y :: ys => x ++ ("/") ++ joinSlash (y :: ys)

/-- `NormalizedEntityBuilder.__init__` context: fixed for the builder's
lifetime (`sync_timestamp` is sampled once, at construction). -/
structure EntityBuilder where
  connection_name : String
  tenant_id : String
  connector_name : String
  sync_id : String
  sync_timestamp : Int

/-- `_build_qualified_name(*parts)`:
`"/".join([self.tenant_id, self.connector_name, *parts])`. -/
def buildQualifiedName (b : EntityBuilder) (parts : List String) : String :=
  joinSlash (b.tenant_id :: b.connector_name :: parts)

/-- `NormalizedColumn` as populated by `create_column`. -/
structure NormalizedColumn where
  name : String
  connectionName : String
  tenantId : String
  lastSyncRun : String
  lastSyncRunAt : Int
  connectorName : String
  attributes : AttrMap
  customAttributes : AttrMap

/-- `d[k] = v` on a Python dict: overwrite in place if the key exists,
else append. -/
def setKey (m : AttrMap) (k : String) (v : Value) : AttrMap :=
  if m.any (fun p => p.1 == k) then m.map (fun p => if p.1 == k then (k, v) else p)
  else m ++ [(k, v)]

/-- Python `dict.update(extra)`. -/
def dictUpdate (m extra : AttrMap) : AttrMap :=
  extra.foldl (fun acc p => setKey acc p.1 p.2) m

def qualifiedNameKey : String := "qualifiedName"

/-- `NormalizedEntityBuilder.create_column`: `kwargs` are the extra custom
attribute facts merged over the fixed defaults. -/
def create_column (b : EntityBuilder)
    (database_name schema_name table_name column_name data_type : String)
    (is_nullable : Bool) (ordinal_position : Int) (kwargs : AttrMap) : NormalizedColumn :=
  let qualified_name :=
    buildQualifiedName b [database_name, schema_name, table_name, column_name]
  let connection_qualified_name := buildQualifiedName b []
  let database_qualified_name := buildQualifiedName b [database_name]
  let schema_qualified_name := buildQualifiedName b [database_name, schema_name]
  let table_qualified_name := buildQualifiedName b [database_name, schema_name, table_name]
  let custom_attributes := dictUpdate
    [(("ordinal_position"), .num ordinal_position),
     (("is_self_referencing"), .str ("NO")),
     (("type_name"), .str data_type),
     (("is_generated"), .str ("NEVER")),
     (("is_identity"), .str ("NO")),
     (("identity_cycle"), .str ("NO"))] kwargs
  { name := column_name
    connectionName := b.connection_name
    tenantId := b.tenant_id
    lastSyncRun := b.sync_id
    lastSyncRunAt := b.sync_timestamp
    connectorName := b.connector_name
    attributes :=
      [((qualifiedNameKey), .str qualified_name),
       (("connectionQualifiedName"), .str connection_qualified_name),
       (("databaseName"), .str database_name),
       (("databaseQualifiedName"), .str database_qualified_name),
       (("schemaName"), .str schema_name),
       (("schemaQualifiedName"), .str schema_qualified_name),
       (("tableName"), .str table_name),
       (("tableQualifiedName"), .str table_qualified_name),
       (("dataType"), .str data_type),
       (("isNullable"), .bool is_nullable),
       (("order"), .num ordinal_position)]
    customAttributes := custom_attributes }

def failedLabel : String := "failed"

def completedLabel : String := "completed"

/-- Observable store writes of one `run_incremental_diff` call. -/
inductive DiffEvent where
  | createdDiffRun (diff_sync_id sync_run_1_id sync_run_2_id : String)
  | updatedStatus (diff_sync_id status : String)
      (counts : Option (Nat × Nat × Nat)) (error_message : Option String)
deriving DecidableEq

/-- The behaviour of the store during one `run_incremental_diff` call:
`get_last_two_sync_runs` returns `(older, newer)` or `None`; the remaining
operations either return their value or raise (`Except.error` carries
`str(e)` of the raised exception). -/
structure StoreBehavior where
  lastTwoRuns : Option (String × String)
  createRun : Except String String
  schemaPhase : Except String Nat
  tablePhase : Except String Nat
  columnPhase : Except String Nat

/-- The dictionary `run_incremental_diff` returns:
`ok` is the `success: True` result with its counters, `err m` is the
`{"success": False, "error": m, ...}` result. -/
inductive RunSummary where
  | ok (diff_sync_id : String)
      (schemas_changed tables_changed columns_changed total_changes : Nat)
  | err (message : String)
deriving DecidableEq

def notEnoughMsg (connection_id : String) : String :=
  ("Not enough sync runs found for connection: ") ++ connection_id
    ++ (". Need at least 2 runs.")

/-- `IncrementalDiffService.run_incremental_diff(connection_id)`.  The outer
`Except` is the function's exception behaviour: `.error` would be an
exception escaping to the caller — the body's `try/except Exception` catches
everything and returns the error dictionary instead, so the code only ever
produces `.ok`.  The event list records the store writes in order. -/
def run_incremental_diff (connection_id : String) (store : StoreBehavior) :
    Except String RunSummary × List DiffEvent :=
  match store.lastTwoRuns with
  | none => (.ok (.err (notEnoughMsg connection_id)), [])
  | some (sync_run_1_id, sync_run_2_id) =>
    match store.createRun with
    | .error e => (.ok (.err e), [])
    | .ok diff_sync_id =>
      let created := DiffEvent.createdDiffRun diff_sync_id sync_run_1_id sync_run_2_id
      match store.schemaPhase with
      | .error e =>
        (.ok (.err e), [created, .updatedStatus diff_sync_id failedLabel none (some e)])
      | .ok schemas_changed =>
        match store.tablePhase with
        | .error e =>
          (.ok (.err e), [created, .updatedStatus diff_sync_id failedLabel none (some e)])
        | .ok tables_changed =>
          match store.columnPhase with
          | .error e =>
            (.ok (.err e), [created, .updatedStatus diff_sync_id failedLabel none (some e)])
          | .ok columns_changed =>
            (.ok (.ok diff_sync_id schemas_changed tables_changed columns_changed
                (schemas_changed + tables_changed + columns_changed)),
              [created, .updatedStatus diff_sync_id completedLabel
                (some (schemas_changed, tables_changed, columns_changed)) none])

/-- A store with a single sync run's worth of history. -/
def storeNoHistory : StoreBehavior := ⟨none, .ok ("d1"), .ok 0, .ok 0, .ok 0⟩

/-- A store whose schema diff phase raises `boom` after the diff run record
is created. -/
def storeSchemaFailure : StoreBehavior :=
  ⟨some (("s1"), ("s2")), .ok ("d1"), .error ("boom"), .ok 0, .ok 0⟩

/-- `==` is symmetric for any lawful `BEq` (Python `==` on these leaves is). -/
theorem lawfulBeq_comm {α : Type} [BEq α] [LawfulBEq α] (a b : α) :
    (a == b) = (b == a) := by
  by_cases h : a = b
  · subst h; rfl
  · have h1 : (a == b) = false := beq_eq_false_iff_ne.mpr h
    have h2 : (b == a) = false := beq_eq_false_iff_ne.mpr (Ne.symm h)
    rw [h1, h2]

theorem pyEqList_refl_of (xs : List Value) (h : ∀ x ∈ xs, pyEq x x = true) :
    pyEqList xs xs = true := by
  induction xs with
  | nil => simp [pyEqList]
  | cons x r ih =>
    simp only [pyEqList, Bool.and_eq_true]
    exact ⟨h x (by simp), ih (fun y hy => h y (by simp [hy]))⟩

theorem pyEqFind_of_mem {xs : List (String × Value)} {k : String} {v : Value}
    (hm : (k, v) ∈ xs) (hv : pyEq v v = true) : pyEqFind k v xs = true := by
  induction xs with
  | nil => simp at hm
  | cons q r ih =>
    obtain ⟨k2, v2⟩ := q
    simp only [pyEqFind, Bool.or_eq_true, Bool.and_eq_true]
    rcases List.mem_cons.mp hm with h1 | h2
    · obtain ⟨hk, hv2⟩ := Prod.mk.injEq .. ▸ h1
      subst hk; subst hv2
      exact Or.inl ⟨by simp, hv⟩
    · exact Or.inr (ih h2)

theorem pyEqSub_of_forall (xs ys : List (String × Value))
    (h : ∀ p ∈ xs, pyEqFind p.1 p.2 ys = true) : pyEqSub xs ys = true := by
  induction xs with
  | nil => simp [pyEqSub]
  | cons p r ih =>
    obtain ⟨k, v⟩ := p
    simp only [pyEqSub, Bool.and_eq_true]
    exact ⟨h (k, v) (by simp), ih (fun q hq => h q (by simp [hq]))⟩

/-- Python equality is reflexive on the JSON-like values (there are no floats
in the model, hence no `NaN`). -/
theorem pyEq_refl (v : Value) : pyEq v v = true := by
  have key : ∀ (n : Nat) (v : Value), sizeOf v < n → pyEq v v = true := by
    intro n
    induction n with
    | zero => intro v h; omega
    | succ n ih =>
      intro v hv
      match v with
      | .null => simp [pyEq]
      | .bool b => simp [pyEq]
      | .num m => simp [pyEq]
      | .str s => simp [pyEq]
      | .arr xs =>
        have hxs : sizeOf xs < n := by
          have := Value.arr.sizeOf_spec xs; omega
        have : pyEqList xs xs = true := by
          apply pyEqList_refl_of
          intro x hx
          have := List.sizeOf_lt_of_mem hx
          exact ih x (by omega)
        simpa [pyEq]
      | .obj fs =>
        have hfs : sizeOf fs < n := by
          have := Value.obj.sizeOf_spec fs; omega
        have hsub : pyEqSub fs fs = true := by
          apply pyEqSub_of_forall
          intro p hp
          have hpsz := List.sizeOf_lt_of_mem hp
          have hv2 : pyEq p.2 p.2 = true := by
            apply ih
            obtain ⟨a, b⟩ := p
            simp only [Prod.mk.sizeOf_spec] at hpsz
            simp only []
            omega
          exact pyEqFind_of_mem (by simpa using hp) hv2
        simp [pyEq, hsub]
  exact key (sizeOf v + 1) v (by omega)

theorem pyEqList_symm_of (xs ys : List Value)
    (h : ∀ x ∈ xs, ∀ y ∈ ys, pyEq x y = pyEq y x) :
    pyEqList xs ys = pyEqList ys xs := by
  induction xs generalizing ys with
  | nil => cases ys <;> simp [pyEqList]
  | cons x r ih =>
    cases ys with
    | nil => simp [pyEqList]
    | cons y s =>
      simp only [pyEqList]
      rw [h x (by simp) y (by simp), ih s (fun a ha b hb => h a (by simp [ha]) b (by simp [hb]))]

/-- Python equality on the JSON-like values is symmetric. -/
theorem pyEq_symm (a b : Value) : pyEq a b = pyEq b a := by
  have key : ∀ (n : Nat) (a b : Value), sizeOf a + sizeOf b < n → pyEq a b = pyEq b a := by
    intro n
    induction n with
    | zero => intro a b h; omega
    | succ n ih =>
      intro a b hab
      match a, b with
      | .null, .null => rfl
      | .bool x, .bool y => simp [pyEq, lawfulBeq_comm]
      | .bool x, .num m => simp [pyEq, lawfulBeq_comm]
      | .num m, .bool x => simp [pyEq, lawfulBeq_comm]
      | .num x, .num y => simp [pyEq, lawfulBeq_comm]
      | .str x, .str y => simp [pyEq, lawfulBeq_comm]
      | .arr xs, .arr ys =>
        have hxs := Value.arr.sizeOf_spec xs
        have hys := Value.arr.sizeOf_spec ys
        have : pyEqList xs ys = pyEqList ys xs := by
          apply pyEqList_symm_of
          intro x hx y hy
          have h1 := List.sizeOf_lt_of_mem hx
          have h2 := List.sizeOf_lt_of_mem hy
          exact ih x y (by omega)
        simpa [pyEq]
      | .obj fs, .obj gs => simp [pyEq, Bool.and_comm]
      | .null, .bool _ | .null, .num _ | .null, .str _ | .null, .arr _ | .null, .obj _ => simp [pyEq]
      | .bool _, .null | .bool _, .str _ | .bool _, .arr _ | .bool _, .obj _ => simp [pyEq]
      | .num _, .null | .num _, .str _ | .num _, .arr _ | .num _, .obj _ => simp [pyEq]
      | .str _, .null | .str _, .bool _ | .str _, .num _ | .str _, .arr _ | .str _, .obj _ => simp [pyEq]
      | .arr _, .null | .arr _, .bool _ | .arr _, .num _ | .arr _, .str _ | .arr _, .obj _ => simp [pyEq]
      | .obj _, .null | .obj _, .bool _ | .obj _, .num _ | .obj _, .str _ | .obj _, .arr _ => simp [pyEq]
  exact key (sizeOf a + sizeOf b + 1) a b (by omega)

theorem lookup_eq_none_of_not_mem_keys {κ β : Type} [DecidableEq κ]
    (s : List (κ × β)) (k : κ) (h : k ∉ s.map Prod.fst) : s.lookup k = none := by
  induction s with
  | nil => rfl
  | cons p r ih =>
    obtain ⟨k2, v⟩ := p
    simp only [List.map_cons, List.mem_cons] at h
    push_neg at h
    obtain ⟨h1, h2⟩ := h
    have hb : (k == k2) = false := beq_eq_false_iff_ne.mpr h1
    simp [List.lookup, hb, ih h2]

theorem lookup_of_mem_keys {κ β : Type} [DecidableEq κ]
    (s : List (κ × β)) (k : κ) (h : k ∈ s.map Prod.fst) : ∃ v, s.lookup k = some v := by
  induction s with
  | nil => simp at h
  | cons p r ih =>
    obtain ⟨k2, v⟩ := p
    by_cases hk : k = k2
    · subst hk
      exact ⟨v, by simp [List.lookup]⟩
    · have hb : (k == k2) = false := beq_eq_false_iff_ne.mpr hk
      simp only [List.map_cons, List.mem_cons] at h
      rcases h with h | h
      · exact absurd h hk
      · obtain ⟨w, hw⟩ := ih h
        exact ⟨w, by simp [List.lookup, hb, hw]⟩

theorem countP_partition4 {κ : Type} (l : List κ) (f : κ → ChangeType) :
    l.countP (fun k => decide (f k = .added)) + l.countP (fun k => decide (f k = .removed))
      + l.countP (fun k => decide (f k = .modified)) + l.countP (fun k => decide (f k = .unchanged))
      = l.length := by
  induction l with
  | nil => simp
  | cons x r ih =>
    simp only [List.countP_cons, List.length_cons]
    cases h : f x <;> simp [h] <;> omega

/-- Claim C1: for every pair of entity snapshots of one kind, each composite
key in the union of the key sets is classified into exactly one of
added/removed/modified/unchanged, the four counts sum to the size of the key
union, a key present only in the newer snapshot is classified added, and a
key present only in the older snapshot is classified removed. -/
theorem c1_key_classification {κ : Type} [DecidableEq κ] (older newer : Snapshot κ) :
    (countType older newer .added + countType older newer .removed
      + countType older newer .modified + countType older newer .unchanged
      = (unionKeys older newer).length)
    ∧ (∀ k ∈ unionKeys older newer,
        classType older newer k = .added ∨ classType older newer k = .removed
          ∨ classType older newer k = .modified ∨ classType older newer k = .unchanged)
    ∧ (∀ k, k ∉ older.map Prod.fst → k ∈ newer.map Prod.fst →
        classType older newer k = .added)
    ∧ (∀ k, k ∈ older.map Prod.fst → k ∉ newer.map Prod.fst →
        classType older newer k = .removed) := by
  refine ⟨countP_partition4 _ _, ?_, ?_, ?_⟩
  · intro k _
    rcases h : classType older newer k <;> tauto
  · intro k h1 h2
    obtain ⟨v, hv⟩ := lookup_of_mem_keys newer k h2
    simp [classType, classify, lookup_eq_none_of_not_mem_keys older k h1, hv,
      calculateAssetDiff]
  · intro k h1 h2
    obtain ⟨v, hv⟩ := lookup_of_mem_keys older k h1
    simp [classType, classify, lookup_eq_none_of_not_mem_keys newer k h2, hv,
      calculateAssetDiff]

theorem c1_key_classification_witness :
    (("email") ∉ sampleOlder.map Prod.fst) ∧ (("email") ∈ sampleNewer.map Prod.fst)
      ∧ classType sampleOlder sampleNewer ("email") = .added :=
  ⟨by decide, by decide,
    (c1_key_classification sampleOlder sampleNewer).2.2.1 ("email") (by decide) (by decide)⟩

/-- Claim C10: boundary postconditions of `_calculate_asset_diff`: on
(None, None) it returns unchanged with an empty difference dict and empty
data slots; an added result carries (None, newer entity) and an empty
difference dict; a removed result carries (older entity, None) and an empty
difference dict. -/
theorem string_append_left_cancel {s t u : String} (h : s ++ t = s ++ u) : t = u := by
  apply String.ext
  have h2 := congrArg String.data h
  simp only [String.data_append] at h2
  exact List.append_cancel_left h2

theorem mem_compareMaps_iff (pre : String) (m1 m2 : AttrMap) (f : String) (o n : Value) :
    (DiffEntry.mk (pre ++ dotSep ++ f) o n) ∈ compareMaps pre m1 m2 ↔
      (f ∈ keyUnion m1 m2 ∧ pyEq (getVal m1 f) (getVal m2 f) = false
        ∧ o = getVal m1 f ∧ n = getVal m2 f) := by
  simp only [compareMaps, List.mem_filterMap]
  constructor
  · rintro ⟨k, hk, hsome⟩
    by_cases hp : pyEq (getVal m1 k) (getVal m2 k) = true
    · simp [hp] at hsome
    · rw [if_neg hp] at hsome
      simp only [Option.some.injEq, DiffEntry.mk.injEq] at hsome
      obtain ⟨hpath, ho, hn⟩ := hsome
      have hkf : k = f := string_append_left_cancel hpath
      subst hkf
      exact ⟨hk, Bool.eq_false_iff.mpr hp, ho.symm, hn.symm⟩
  · rintro ⟨hf, hp, ho, hn⟩
    refine ⟨f, hf, ?_⟩
    rw [if_neg (by simp [hp])]
    subst ho; subst hn
    rfl

theorem missing_key_is_null (m : AttrMap) (k : String) (h : k ∉ m.map Prod.fst) :
    getVal m k = .null := by
  simp [getVal, lookup_eq_none_of_not_mem_keys m k h]

/-- Claim C2: for a key present in both snapshots the diff compares
`attributes` and then `custom_attributes` field by field over the key union
of each map (a key missing on one side reads as None), records each differing
field under `attributes.<field>` or `custom_attributes.<field>` with its old
and new values, and classifies modified exactly when the difference map is
non-empty (unchanged otherwise); changing a column's isNullable from false to
true yields exactly one modified record with the single difference
`attributes.isNullable: old false, new true`. -/
theorem c2_field_by_field_diff :
    (∀ a1 a2 : Asset,
      ((calculateAssetDiff (some a1) (some a2)).change_type = .modified
          ↔ assetDifferences a1 a2 ≠ [])
      ∧ ((calculateAssetDiff (some a1) (some a2)).change_type = .unchanged
          ↔ assetDifferences a1 a2 = [])
      ∧ (calculateAssetDiff (some a1) (some a2)).differences = assetDifferences a1 a2
      ∧ assetDifferences a1 a2
          = compareMaps attrsLabel (attrsOrEmpty a1.attributes) (attrsOrEmpty a2.attributes)
            ++ compareMaps customLabel (attrsOrEmpty a1.custom_attributes)
                (attrsOrEmpty a2.custom_attributes))
    ∧ (∀ pre m1 m2 f o n,
        (DiffEntry.mk (pre ++ dotSep ++ f) o n) ∈ compareMaps pre m1 m2 ↔
          (f ∈ keyUnion m1 m2 ∧ pyEq (getVal m1 f) (getVal m2 f) = false
            ∧ o = getVal m1 f ∧ n = getVal m2 f))
    ∧ (∀ (m : AttrMap) (k : String), k ∉ m.map Prod.fst → getVal m k = .null)
    ∧ calculateAssetDiff (some emailOld) (some emailNew)
        = ⟨.modified, [DiffEntry.mk (attrsLabel ++ dotSep ++ ("isNullable")) (.bool false) (.bool true)],
            some emailOld, some emailNew⟩ := by
  refine ⟨?_, mem_compareMaps_iff, missing_key_is_null, ?_⟩
  · intro a1 a2
    refine ⟨?_, ?_, ?_, rfl⟩ <;>
      · simp only [calculateAssetDiff, List.isEmpty_iff]
        by_cases h : assetDifferences a1 a2 = [] <;> simp [h]
  · simp [calculateAssetDiff, assetDifferences, compareMaps, keyUnion, getVal,
      attrsOrEmpty, emailOld, emailNew, attrsLabel, customLabel, List.dedup, pyEq,
      List.filterMap, List.lookup, Option.getD]

theorem c2_field_by_field_diff_witness :
    (DiffEntry.mk (attrsLabel ++ dotSep ++ ("isNullable")) (.bool false) (.bool true))
      ∈ compareMaps attrsLabel [(("isNullable"), .bool false)] [(("isNullable"), .bool true)]
    ∧ getVal [(("dataType"), .str ("varchar"))] ("isNullable") = .null := by
  constructor
  · apply (c2_field_by_field_diff.2.1 attrsLabel
      [(("isNullable"), .bool false)] [(("isNullable"), .bool true)]
      ("isNullable") (.bool false) (.bool true)).mpr
    refine ⟨by decide, ?_, ?_, ?_⟩
    · simp [getVal, pyEq]
    · simp [getVal]
    · simp [getVal]
  · exact c2_field_by_field_diff.2.2.1 [(("dataType"), .str ("varchar"))] ("isNullable")
      (by decide)

/-- Claim C8 counterexample: the boolean `true` and the number `1` are values
of different primitive types, yet Python `==` (which `_calculate_asset_diff`
uses via `val_1 != val_2`) treats them as equal because `bool` is an `int`
subclass, so an attribute changing from `true` to `1` is classified
unchanged with no recorded difference — refuting "two values of different
primitive types are never considered equal". -/
theorem c8_counterexample :
    pyEq (.bool true) (.num 1) = true
    ∧ (calculateAssetDiff (some boolTrueAsset) (some numOneAsset)).change_type = .unchanged
    ∧ (calculateAssetDiff (some boolTrueAsset) (some numOneAsset)).differences = [] := by
  refine ⟨by simp [pyEq], ?_, ?_⟩ <;>
    simp [calculateAssetDiff, assetDifferences, compareMaps, keyUnion, getVal, attrsOrEmpty,
      boolTrueAsset, numOneAsset, attrsLabel, customLabel, List.dedup, pyEq, List.filterMap,
      List.lookup, Option.getD]

/-- Claim C8 as amended: attribute comparison is exact structural equality
with no coercion between strings and numbers, strings and booleans, or null
and anything else (in particular numeric `5` and string `"5"` differ and the
diff records that difference), except that Python's numeric equality spans
booleans and numbers: a boolean equals a number exactly when the number is
its 0/1 value. -/
theorem c8_no_string_number_coercion :
    (∀ (n : Int) (s : String), pyEq (.num n) (.str s) = false ∧ pyEq (.str s) (.num n) = false)
    ∧ (∀ n : Int, pyEq .null (.num n) = false ∧ pyEq (.num n) .null = false)
    ∧ (∀ s : String, pyEq .null (.str s) = false ∧ pyEq (.str s) .null = false)
    ∧ (∀ (b : Bool) (s : String), pyEq (.bool b) (.str s) = false ∧ pyEq (.str s) (.bool b) = false)
    ∧ (∀ (b : Bool) (n : Int), pyEq (.bool b) (.num n) = true ↔ (if b then (1 : Int) else 0) = n)
    ∧ pyEq (.num 5) (.str ("5")) = false
    ∧ (calculateAssetDiff (some numFiveAsset) (some strFiveAsset)).change_type = .modified
    ∧ (calculateAssetDiff (some numFiveAsset) (some strFiveAsset)).differences
        = [DiffEntry.mk (attrsLabel ++ dotSep ++ ("a")) (.num 5) (.str ("5"))] := by
  refine ⟨fun n s => ⟨by simp [pyEq], by simp [pyEq]⟩,
    fun n => ⟨by simp [pyEq], by simp [pyEq]⟩,
    fun s => ⟨by simp [pyEq], by simp [pyEq]⟩,
    fun b s => ⟨by simp [pyEq], by simp [pyEq]⟩,
    fun b n => by simp [pyEq], by simp [pyEq], ?_, ?_⟩ <;>
    simp [calculateAssetDiff, assetDifferences, compareMaps, keyUnion, getVal, attrsOrEmpty,
      numFiveAsset, strFiveAsset, attrsLabel, customLabel, List.dedup, pyEq, List.filterMap,
      List.lookup, Option.getD]

theorem c10_asset_diff_boundary :
    (calculateAssetDiff none none = ⟨.unchanged, [], none, none⟩)
    ∧ (∀ o n : Option Asset, (calculateAssetDiff o n).change_type = .added →
        o = none ∧ (calculateAssetDiff o n).sync_run_1_data = none
          ∧ (calculateAssetDiff o n).sync_run_2_data = n ∧ n.isSome
          ∧ (calculateAssetDiff o n).differences = [])
    ∧ (∀ o n : Option Asset, (calculateAssetDiff o n).change_type = .removed →
        n = none ∧ (calculateAssetDiff o n).sync_run_2_data = none
          ∧ (calculateAssetDiff o n).sync_run_1_data = o ∧ o.isSome
          ∧ (calculateAssetDiff o n).differences = []) := by
  refine ⟨rfl, ?_, ?_⟩ <;>
    · intro o n h
      cases o <;> cases n <;>
        simp_all [calculateAssetDiff] <;>
        split at h <;> simp_all

theorem compareMaps_eq_nil_iff (pre : String) (m1 m2 : AttrMap) :
    compareMaps pre m1 m2 = [] ↔
      ∀ k ∈ keyUnion m1 m2, pyEq (getVal m1 k) (getVal m2 k) = true := by
  rw [compareMaps, List.filterMap_eq_nil_iff]
  refine forall_congr' fun k => imp_congr_right fun _ => ?_
  by_cases h : pyEq (getVal m1 k) (getVal m2 k) = true <;> simp [h]

theorem keyUnion_mem_comm (m1 m2 : AttrMap) (k : String) :
    k ∈ keyUnion m1 m2 ↔ k ∈ keyUnion m2 m1 := by
  simp [keyUnion, List.mem_dedup, or_comm]

theorem compareMaps_self_nil (pre : String) (m : AttrMap) : compareMaps pre m m = [] := by
  rw [compareMaps_eq_nil_iff]
  intro k _
  exact pyEq_refl _

theorem assetDifferences_self (a : Asset) : assetDifferences a a = [] := by
  simp [assetDifferences, compareMaps_self_nil]

theorem assetDifferences_nil_swap (a b : Asset) :
    assetDifferences b a = [] ↔ assetDifferences a b = [] := by
  simp only [assetDifferences, List.append_eq_nil]
  rw [compareMaps_eq_nil_iff, compareMaps_eq_nil_iff,
    compareMaps_eq_nil_iff, compareMaps_eq_nil_iff]
  constructor <;>
    · rintro ⟨h1, h2⟩
      constructor <;>
        · intro k hk
          rw [pyEq_symm]
          first
            | exact h1 k ((keyUnion_mem_comm _ _ k).mp hk)
            | exact h2 k ((keyUnion_mem_comm _ _ k).mp hk)

theorem classType_swap {κ : Type} [DecidableEq κ] (A B : Snapshot κ) (k : κ) :
    classType B A k = swapCT (classType A B k) := by
  unfold classType classify
  cases hA : A.lookup k <;> cases hB : B.lookup k <;>
    simp only [calculateAssetDiff, swapCT]
  rename_i a b
  by_cases h : assetDifferences a b = []
  · have h2 : assetDifferences b a = [] := (assetDifferences_nil_swap a b).mpr h
    simp [h, h2, swapCT]
  · have h2 : ¬(assetDifferences b a = []) := fun hc =>
      h ((assetDifferences_nil_swap a b).mp hc)
    simp [h, h2, swapCT]

theorem unionKeys_perm {κ : Type} [DecidableEq κ] (A B : Snapshot κ) :
    (unionKeys B A).Perm (unionKeys A B) := by
  apply (List.perm_ext_iff_of_nodup (List.nodup_dedup _) (List.nodup_dedup _)).mpr
  intro a
  simp [unionKeys, List.mem_dedup, or_comm]

theorem countType_rev {κ : Type} [DecidableEq κ] (A B : Snapshot κ) (t : ChangeType) :
    countType B A t = countType A B (swapCT t) := by
  unfold countType
  rw [List.Perm.countP_eq _ (unionKeys_perm A B)]
  apply List.countP_congr
  intro k _
  simp only [decide_eq_true_eq]
  rw [classType_swap A B k]
  cases classType A B k <;> cases t <;> simp [swapCT]

/-- Claim C6: diffing (A, B) and diffing (B, A) swap the added and removed
counts exactly, and the modified and unchanged counts agree in both
directions. -/
theorem c6_direction_swap {κ : Type} [DecidableEq κ] (A B : Snapshot κ) :
    countType A B .added = countType B A .removed
    ∧ countType A B .removed = countType B A .added
    ∧ countType A B .modified = countType B A .modified
    ∧ countType A B .unchanged = countType B A .unchanged :=
  ⟨(countType_rev A B .removed).symm, (countType_rev A B .added).symm,
    (countType_rev A B .modified).symm, (countType_rev A B .unchanged).symm⟩

theorem classType_self {κ : Type} [DecidableEq κ] (S : Snapshot κ) (k : κ) :
    classType S S k = .unchanged := by
  unfold classType classify
  cases h : S.lookup k <;> simp [calculateAssetDiff, assetDifferences_self]

/-- Claim C7: diffing a snapshot against an identical copy of itself
classifies every key unchanged, yields zero added/removed/modified, a change
count of zero, and persists no diff records. -/
theorem c7_self_diff {κ : Type} [DecidableEq κ] (S : Snapshot κ) :
    countType S S .added = 0 ∧ countType S S .removed = 0 ∧ countType S S .modified = 0
    ∧ countType S S .unchanged = (unionKeys S S).length
    ∧ changesCount S S = 0
    ∧ savedRecords S S = []
    ∧ ∀ k : κ, classType S S k = .unchanged := by
  refine ⟨?_, ?_, ?_, ?_, ?_, ?_, classType_self S⟩
  · exact List.countP_eq_zero.mpr fun k _ => by simp [classType_self]
  · exact List.countP_eq_zero.mpr fun k _ => by simp [classType_self]
  · exact List.countP_eq_zero.mpr fun k _ => by simp [classType_self]
  · exact List.countP_eq_length.mpr fun k _ => by simp [classType_self]
  · exact List.countP_eq_zero.mpr fun k _ => by simp [classType_self]
  · exact List.filterMap_eq_nil_iff.mpr fun k _ => by simp [classType_self]

theorem c10_asset_diff_boundary_witness :
    (none : Option Asset) = none
      ∧ (calculateAssetDiff none (some sampleAsset)).sync_run_1_data = none
      ∧ (calculateAssetDiff none (some sampleAsset)).sync_run_2_data = some sampleAsset
      ∧ (some sampleAsset).isSome
      ∧ (calculateAssetDiff none (some sampleAsset)).differences = [] :=
  c10_asset_diff_boundary.2.1 none (some sampleAsset) rfl

/-- Claim C5: for inputs with highNull ≤ total and lowDistinct ≤ total the
quality score equals `clamp(0, 100, round(100 − 30·(highNull/total) −
20·(lowDistinct/total), 1))`, equals 100 when total = 0, always lies in
[0, 100], and equals 87.0 at (100, 40, 5). -/
theorem c5_quality_score_formula (t h l : ℕ) (hh : h ≤ t) (hl : l ≤ t) :
    (calculateQualityScore t h l
      = if t = 0 then 100
        else clampScore 0 100
          (pyRound1 (100 - 30 * ((h : ℚ) / (t : ℚ)) - 20 * ((l : ℚ) / (t : ℚ)))))
    ∧ 0 ≤ calculateQualityScore t h l
    ∧ calculateQualityScore t h l ≤ 100
    ∧ calculateQualityScore 0 h l = 100
    ∧ calculateQualityScore 100 40 5 = 87 := by
  refine ⟨?_, ?_, ?_, by simp [calculateQualityScore], ?_⟩
  · by_cases ht : t = 0
    · simp [calculateQualityScore, ht]
    · simp only [calculateQualityScore, ht, if_false, clampScore]
      have harg : (100 : ℚ) - ((h : ℚ) / (t : ℚ)) * 30 - ((l : ℚ) / (t : ℚ)) * 20
          = 100 - 30 * ((h : ℚ) / (t : ℚ)) - 20 * ((l : ℚ) / (t : ℚ)) := by ring
      rw [harg]
  · by_cases ht : t = 0
    · simp [calculateQualityScore, ht]
    · simp only [calculateQualityScore, ht, if_false]
      exact le_max_left 0 _
  · by_cases ht : t = 0
    · simp [calculateQualityScore, ht]
    · simp only [calculateQualityScore, ht, if_false]
      exact max_le (by norm_num) (min_le_left _ _)
  · norm_num [calculateQualityScore, pyRound1, roundHalfEven]

theorem c5_quality_score_formula_witness :
    ((40 : ℕ) ≤ 100 ∧ (5 : ℕ) ≤ 100) ∧ calculateQualityScore 100 40 5 = 87 :=
  ⟨⟨by norm_num, by norm_num⟩,
    (c5_quality_score_formula 100 40 5 (by norm_num) (by norm_num)).2.2.2.2⟩

/-- Claim C9: qualified names are the slash-joined path
tenantId/connectorName followed by the ancestor names in order (for a column,
down to the column name), and `create_column` is a pure function of its
inputs and the builder context, so two identical calls yield identical
qualified names and identical attribute maps. -/
theorem c9_qualified_name_construction (b : EntityBuilder)
    (db sch tbl col dt : String) (nl : Bool) (pos : Int) (kw : AttrMap) :
    buildQualifiedName b [] = b.tenant_id ++ ("/") ++ b.connector_name
    ∧ buildQualifiedName b [db] = b.tenant_id ++ ("/") ++ b.connector_name ++ ("/") ++ db
    ∧ buildQualifiedName b [db, sch]
        = b.tenant_id ++ ("/") ++ b.connector_name ++ ("/") ++ db ++ ("/") ++ sch
    ∧ buildQualifiedName b [db, sch, tbl]
        = b.tenant_id ++ ("/") ++ b.connector_name ++ ("/") ++ db ++ ("/") ++ sch ++ ("/") ++ tbl
    ∧ (create_column b db sch tbl col dt nl pos kw).attributes.lookup qualifiedNameKey
        = some (.str (b.tenant_id ++ ("/") ++ b.connector_name ++ ("/") ++ db ++ ("/") ++ sch
            ++ ("/") ++ tbl ++ ("/") ++ col))
    ∧ create_column b db sch tbl col dt nl pos kw = create_column b db sch tbl col dt nl pos kw := by
  refine ⟨rfl, ?_, ?_, ?_, ?_, rfl⟩ <;>
    simp [buildQualifiedName, joinSlash, create_column, List.lookup, qualifiedNameKey,
      String.append_assoc]

/-- Claim C3: when fewer than two sync runs exist for the connection,
`run_incremental_diff` surfaces a user-visible failure to the caller (the
returned error result naming the connection — the code has no exception class
for this; the spec calls this failure `InsufficientHistoryError`) and no diff
run record is created. -/
theorem c3_insufficient_history (connection_id : String) (store : StoreBehavior)
    (h : store.lastTwoRuns = none) :
    (run_incremental_diff connection_id store).1
        = .ok (.err (notEnoughMsg connection_id))
    ∧ (run_incremental_diff connection_id store).2 = []
    ∧ ∀ e ∈ (run_incremental_diff connection_id store).2,
        ∀ d s1 s2, e ≠ .createdDiffRun d s1 s2 := by
  simp [run_incremental_diff, h]

theorem c3_insufficient_history_witness :
    (run_incremental_diff ("acme") storeNoHistory).1
        = .ok (.err (notEnoughMsg ("acme")))
    ∧ (run_incremental_diff ("acme") storeNoHistory).2 = []
    ∧ ∀ e ∈ (run_incremental_diff ("acme") storeNoHistory).2,
        ∀ d s1 s2, e ≠ .createdDiffRun d s1 s2 :=
  c3_insufficient_history ("acme") storeNoHistory rfl

/-- Claim C4 counterexample: when the schema phase raises after the diff run
is created, `run_incremental_diff` catches the exception and returns the
error dictionary — it does not re-raise the causing error to the caller, so
the claim's "re-raises the causing error" is false on the code. -/
theorem c4_counterexample :
    (run_incremental_diff ("acme") storeSchemaFailure).1 = .ok (.err ("boom"))
    ∧ (run_incremental_diff ("acme") storeSchemaFailure).1 ≠ .error ("boom") := by
  constructor
  · rfl
  · simp [run_incremental_diff, storeSchemaFailure]

/-- Claim C4 as amended: if an error occurs during any diff phase after the
diff run record is created, `run_incremental_diff` aborts the remaining
phases, marks the diff run failed with the exception's message, and returns a
failure result carrying that message to the caller (the exception is caught
and converted into the error dictionary, not re-raised). -/
theorem c4_failure_bookkeeping (connection_id d s1 s2 e : String) (store : StoreBehavior)
    (h1 : store.lastTwoRuns = some (s1, s2)) (h2 : store.createRun = .ok d)
    (h3 : store.schemaPhase = .error e
      ∨ (∃ sc, store.schemaPhase = .ok sc ∧ store.tablePhase = .error e)
      ∨ (∃ sc tc, store.schemaPhase = .ok sc ∧ store.tablePhase = .ok tc
          ∧ store.columnPhase = .error e)) :
    (run_incremental_diff connection_id store).1 = .ok (.err e)
    ∧ (run_incremental_diff connection_id store).2
        = [.createdDiffRun d s1 s2, .updatedStatus d failedLabel none (some e)]
    ∧ ∀ ev ∈ (run_incremental_diff connection_id store).2,
        ∀ c, ev ≠ .updatedStatus d completedLabel c none := by
  rcases h3 with h3 | ⟨sc, h3, h4⟩ | ⟨sc, tc, h3, h4, h5⟩ <;>
    simp [run_incremental_diff, h1, h2, h3, failedLabel, completedLabel] <;>
    simp_all [run_incremental_diff, h1, h2, h3]

theorem c4_failure_bookkeeping_witness :
    (run_incremental_diff ("acme") storeSchemaFailure).1 = .ok (.err ("boom"))
    ∧ (run_incremental_diff ("acme") storeSchemaFailure).2
        = [.createdDiffRun ("d1") ("s1") ("s2"),
           .updatedStatus ("d1") failedLabel none (some ("boom"))]
    ∧ ∀ ev ∈ (run_incremental_diff ("acme") storeSchemaFailure).2,
        ∀ c, ev ≠ .updatedStatus ("d1") completedLabel c none :=
  c4_failure_bookkeeping ("acme") ("d1") ("s1") ("s2") ("boom") storeSchemaFailure
    rfl rfl (Or.inl rfl)

end DSA
